import Mathlib

/-!
Verification development for the titiler-pgstac Search Registry and Spatial
Asset Resolver.

The sources under verification are:
* `titiler/pgstac/extensions.py` — the `/info` endpoint: registry lookup of a
  search by its hash, the not-found error message, and construction of the
  discovery links (self, tilejson, map viewer, WMTS) including the per-layer
  parameterized links built from `metadata.defaults`;
* `titiler/pgstac/custom.py` — the `ChangeDetectionVisualize` algorithm;
* the store/normalizer/resolver/listing components, which are not part of the
  sources and are modelled from the specification where a claim needs them
  (each such definition is marked `Modelled from the spec:`).

Machine-level details are embedded shallowly: SQL rows become Lean structures,
uint8 arrays become `Nat` values reduced `% 256` where overflow matters,
floating-point raster values become `Rat`, and the external collaborators
(query-parameter validation, URL encoding, geometry intersection, the CQL2
filter evaluator) are abstracted as function parameters.
-/

namespace TitilerPgstac

/-! ## Link model (`titiler.pgstac.model.Link`) -/

/-- A discovery link as serialized by the `/info` endpoint: `rel`, `title`,
`href` and the `templated` flag (`False` when not set by the source). -/
structure Link where
  rel : String
  title : String
  href : String
  templated : Bool
deriving DecidableEq, Repr

/-- The `self` link emitted first by `info` (extensions.py lines 49-55). -/
def selfLink (href : String) : Link :=
  { rel := "self", title := "Mosaic metadata", href := href, templated := false }

/-- The warning message emitted for a layer whose parameters do not validate
against the tile dependencies (extensions.py lines 77-81). -/
def layerWarning (name : String) : String :=
  "Cannot construct URL for layer `" ++ name ++ "`"

/-- The loop over `metadata.defaults` layers (extensions.py lines 57-81):
each `(name, values)` pair either becomes a `(name, urlencode(values))` entry
of `layers` when `check_query_params` accepts it, or contributes one
`UserWarning` and is skipped.  `check` abstracts the external
`titiler.core.utils.check_query_params` applied to the tile dependencies, and
`enc` abstracts `urllib.parse.urlencode`.  Returns `(layers, warnings)`. -/
def buildLayers {P : Type} (check : P → Bool) (enc : P → String) :
    List (String × P) → List (String × String) × List String
  | [] => ([], [])
  | (name, values) :: rest =>
    let r := buildLayers check enc rest
    if check values then ((name, enc values) :: r.1, r.2)
    else (r.1, layerWarning name :: r.2)

/-- Un-parameterized TileJSON link (extensions.py lines 87-94). -/
def tilejsonBase (href : String) : Link :=
  { rel := "tilejson", title := "TileJSON link (Template URL).", href := href,
    templated := true }

/-- Parameterized TileJSON link for one layer (extensions.py lines 95-103). -/
def tilejsonLayerLink (href : String) (layer : String × String) : Link :=
  { rel := "tilejson",
    title := "TileJSON link for `" ++ layer.1 ++ "` layer (Template URL).",
    href := href ++ "?" ++ layer.2, templated := true }

/-- Un-parameterized map viewer link (extensions.py lines 112-119). -/
def mapViewerBase (href : String) : Link :=
  { rel := "map", title := "Map viewer link (Template URL).", href := href,
    templated := true }

/-- Parameterized map viewer link for one layer (extensions.py lines 120-128). -/
def mapViewerLayerLink (href : String) (layer : String × String) : Link :=
  { rel := "map",
    title := "Map viewer link for `" ++ layer.1 ++ "` layer (Template URL).",
    href := href ++ "?" ++ layer.2, templated := true }

/-- WMTS link (extensions.py lines 133-144); the source builds no per-layer
WMTS links. -/
def wmtsLink (href : String) : Link :=
  { rel := "wmts", title := "WMTS link (Template URL)", href := href,
    templated := true }

/-- TileJSON block of `info` (extensions.py lines 83-106): when `url_for`
raises `NoMatchFound` (modelled as `none`) nothing is appended; otherwise the
base link followed by one link per layer. -/
def tilejsonLinks (u : Option String) (layers : List (String × String)) :
    List Link :=
  match u with
  | none => []
  | some href => tilejsonBase href :: layers.map (tilejsonLayerLink href)

/-- Map viewer block of `info` (extensions.py lines 108-131). -/
def mapViewerLinks (u : Option String) (layers : List (String × String)) :
    List Link :=
  match u with
  | none => []
  | some href => mapViewerBase href :: layers.map (mapViewerLayerLink href)

/-- WMTS block of `info` (extensions.py lines 133-147). -/
def wmtsLinks (u : Option String) : List Link :=
  match u with
  | none => []
  | some href => [wmtsLink href]

/-- The full link list produced by `info`: self first, then the TileJSON
block, the map viewer block and the WMTS block, in that source order
(extensions.py lines 49-147).  `tj`, `mv`, `wm` are the resolved endpoint
URLs, `none` when the corresponding route is not exposed. -/
def infoLinks (selfHref : String) (tj mv wm : Option String)
    (layers : List (String × String)) : List Link :=
  selfLink selfHref :: (tilejsonLinks tj layers ++ mapViewerLinks mv layers ++ wmtsLinks wm)

/-- The `/info` link construction end to end: process the `defaults` layers,
then build the links.  Returns `(links, warnings)`. -/
def infoResult {P : Type} (check : P → Bool) (enc : P → String)
    (renders : List (String × P)) (selfHref : String)
    (tj mv wm : Option String) : List Link × List String :=
  let lw := buildLayers check enc renders
  (infoLinks selfHref tj mv wm lw.1, lw.2)

/-! ## Helper lemmas about the layer loop -/

/-- The kept layers are exactly the entries accepted by `check`, in order. -/
theorem buildLayers_fst {P : Type} (check : P → Bool) (enc : P → String)
    (renders : List (String × P)) :
    (buildLayers check enc renders).1 =
      (renders.filter (fun r => check r.2)).map (fun r => (r.1, enc r.2)) := by
  induction renders with
  | nil => rfl
  | cons hd tl ih =>
    obtain ⟨name, values⟩ := hd
    by_cases h : check values
    · simp [buildLayers, h, List.filter_cons, ih]
    · simp [buildLayers, h, List.filter_cons, ih]

/-- The warnings are exactly one `layerWarning` per rejected entry, in order. -/
theorem buildLayers_snd {P : Type} (check : P → Bool) (enc : P → String)
    (renders : List (String × P)) :
    (buildLayers check enc renders).2 =
      (renders.filter (fun r => !check r.2)).map (fun r => layerWarning r.1) := by
  induction renders with
  | nil => rfl
  | cons hd tl ih =>
    obtain ⟨name, values⟩ := hd
    by_cases h : check values
    · simp [buildLayers, h, List.filter_cons, ih]
    · simp [buildLayers, h, List.filter_cons, ih]

/-! ## Search definitions and the registry store

The store itself (the pgstac `searches` table and its upsert function) is not
among the repository's source files; only the `/info` endpoint's direct query
of it is.  The store is therefore modelled from the spec, while the `/info`
lookup and its error message are embedded from `extensions.py`. -/

/-- Canonical search definition (spec section 3): collections, ids, bbox,
datetime shorthand, an opaque already-parsed filter (kept as its serialized
text) and the filter dialect tag. -/
structure SearchDefinition where
  collections : Option (List String)
  ids : Option (List String)
  bbox : Option (List Rat)
  datetime : Option String
  filterExpr : Option String
  filterLang : String
deriving DecidableEq, Repr

/-- A persisted registry row (spec section 3, `RegistryEntry`; the pgstac
`searches` table columns `hash`, `search`, `metadata`, plus timestamps —
`lastused` spelled as in the listing response). -/
structure RegEntry where
  hash : String
  definition : SearchDefinition
  metadata : List (String × String)
  createdat : Nat
  lastused : Nat
deriving DecidableEq, Repr

/-- The `/info` endpoint's registry read (extensions.py lines 38-44):
`SELECT * FROM searches WHERE hash=%s;` followed by `fetchone`. -/
def fetchSearch (searches : List RegEntry) (search_id : String) :
    Option RegEntry :=
  searches.find? (fun e => e.hash == search_id)

/-- The not-found error message (extensions.py line 47):
`MosaicNotFoundError(f"SearchId \x7bsearch_id\x7d not found")` with the id
backtick-quoted. -/
def notFoundDetail (search_id : String) : String :=
  "SearchId `" ++ search_id ++ "` not found"

/-- The `/info` endpoint's lookup outcome (extensions.py lines 38-47): the
row when present, otherwise the not-found error carrying the message. -/
def infoEndpoint (searches : List RegEntry) (search_id : String) :
    Except String RegEntry :=
  match fetchSearch searches search_id with
  | none => Except.error (notFoundDetail search_id)
  | some s => Except.ok s

/-- Modelled from the spec: the lookup-by-id operations other than `/info`
(asset-for-point, asset-for-tile, statistics, feature, bbox, tile, tilejson,
WMTS, map) are not among the source files; per the spec they "all take the
registry id as a path segment; all fail uniformly with a not-found status and
a body {detail: ...} (id echoed verbatim, backtick-quoted) when the id is
absent from the registry". -/
def lookupByIdOperation (searches : List RegEntry) (search_id : String) :
    Except String RegEntry :=
  match fetchSearch searches search_id with
  | none => Except.error (notFoundDetail search_id)
  | some s => Except.ok s

/-- Modelled from the spec: the canonical serialization of a definition,
"object keys and set-valued fields are sorted into a fixed order"; absent
fields normalize to a single sentinel. -/
def canonSer (d : SearchDefinition) : String :=
  let opt : Option String → String := fun s => s.getD "null"
  let optList : Option (List String) → String := fun l =>
    match l with
    | none => "null"
    | some xs => String.intercalate "," xs
  "bbox=" ++ (match d.bbox with
    | none => "null"
    | some bs => String.intercalate "," (bs.map (fun q => toString q))) ++
  ";collections=" ++ optList d.collections ++
  ";datetime=" ++ opt d.datetime ++
  ";filter=" ++ opt d.filterExpr ++
  ";filter-lang=" ++ d.filterLang ++
  ";ids=" ++ optList d.ids

/-- Modelled from the spec: a deterministic 128-bit digest of a string,
encoded as a fixed-width (32 hex digit) string.  The spec only requires the
fingerprint to be a deterministic function of the canonical serialization;
the digest here is a simple polynomial hash reduced `% 2^128`. -/
def hashHex (s : String) : String :=
  let n := s.foldl (fun h c => (h * 131 + c.toNat) % 2 ^ 128) 7
  String.mk ((List.range 32).map (fun i => Nat.digitChar (n / 16 ^ (31 - i) % 16)))

/-- Modelled from the spec: "Fingerprint = a deterministic, cryptographically
strong hash ... of the canonical serialization of `definition` only —
metadata is NOT part of the fingerprint". -/
def fingerprint (d : SearchDefinition) : String :=
  hashHex (canonSer d)

/-- Modelled from the spec: idempotent registration.  "if a row for the
computed id already exists, the store updates `lastUsed` and, by policy, may
refresh `metadata` (last-write-wins) but MUST NOT alter `definition` or
`createdAt`"; otherwise a fresh row is inserted with `createdAt` and
`lastUsed` set to the current time.  Returns the id and the new store. -/
def registerSearch (st : List RegEntry) (now : Nat) (d : SearchDefinition)
    (m : List (String × String)) : String × List RegEntry :=
  let id := fingerprint d
  (id,
   match st.find? (fun e => e.hash == id) with
   | some _ =>
     st.map (fun e =>
       if e.hash == id then { e with metadata := m, lastused := now } else e)
   | none =>
     st ++ [{ hash := id, definition := d, metadata := m,
              createdat := now, lastused := now }])

/-- Modelled from the spec: the store's `get`, which "always refreshes
`lastUsed` as a side effect of a successful lookup (read-through touch)".
Returns the (touched) row and the new store. -/
def registryGet (st : List RegEntry) (now : Nat) (id : String) :
    Option RegEntry × List RegEntry :=
  match st.find? (fun e => e.hash == id) with
  | none => (none, st)
  | some e =>
    (some { e with lastused := now },
     st.map (fun x => if x.hash == id then { x with lastused := now } else x))

/-- The `/info` endpoint's lookup as a state transformer (extensions.py lines
38-44): the handler executes a plain `SELECT` and writes nothing, so the
store is returned unchanged. -/
def infoSelect (searches : List RegEntry) (search_id : String) :
    Option RegEntry × List RegEntry :=
  (searches.find? (fun e => e.hash == search_id), searches)

/-! ## Helper lemmas about registry lookups -/

/-- `find?` over a map that rewrites exactly the matching elements, by a
function that keeps them matching, finds the rewritten element. -/
theorem find?_map_if {α : Type} (p : α → Bool) (f : α → α)
    (hf : ∀ a, p a = true → p (f a) = true) (l : List α) :
    (l.map (fun a => if p a then f a else a)).find? p = (l.find? p).map f := by
  induction l with
  | nil => rfl
  | cons a tl ih =>
    by_cases h : p a = true
    · simp [h, hf a h]
    · simp [h, ih]

/-- `find?` hops over a prefix in which nothing matches. -/
theorem find?_append_of_none {α : Type} (p : α → Bool) (l₁ l₂ : List α)
    (h : l₁.find? p = none) : (l₁ ++ l₂).find? p = l₂.find? p := by
  induction l₁ with
  | nil => rfl
  | cons a tl ih =>
    rw [List.find?_cons] at h
    cases hpa : p a with
    | true => rw [hpa] at h; exact absurd h (by simp)
    | false =>
      rw [hpa] at h
      simpa [List.find?_cons, hpa] using ih h

/-- After `registerSearch`, looking the fingerprint up finds a row whose
metadata is the newly supplied mapping and whose definition is either the
registered one (fresh insert) or the one already stored under that hash
(conflict branch, which never alters `definition`). -/
theorem find?_registerSearch (st : List RegEntry) (now : Nat)
    (d : SearchDefinition) (m : List (String × String)) :
    ∃ e, (registerSearch st now d m).2.find? (fun x => x.hash == fingerprint d)
        = some e ∧
      e.metadata = m ∧ e.lastused = now ∧
      (e.definition = d ∨
        ∃ e₀, st.find? (fun x => x.hash == fingerprint d) = some e₀ ∧
          e.definition = e₀.definition ∧ e.createdat = e₀.createdat) := by
  cases hfind : st.find? (fun x => x.hash == fingerprint d) with
  | none =>
    refine ⟨{ hash := fingerprint d, definition := d, metadata := m,
              createdat := now, lastused := now }, ?_, rfl, rfl, Or.inl rfl⟩
    simp only [registerSearch, hfind]
    rw [find?_append_of_none _ _ _ hfind]
    simp [List.find?_cons]
  | some e₀ =>
    refine ⟨{ e₀ with metadata := m, lastused := now }, ?_, rfl, rfl,
      Or.inr ⟨e₀, rfl, rfl, rfl⟩⟩
    simp only [registerSearch, hfind]
    rw [find?_map_if (fun x => x.hash == fingerprint d)
      (fun x => { x with metadata := m, lastused := now }) (fun a ha => ha) st]
    rw [hfind]
    rfl

/-! ## C1 — idempotent registration, fingerprint from the definition only -/

/-- C1: registering the same definition twice with different metadata returns
the same id both times — the id is `fingerprint d`, a function of the
canonical serialization of the definition only, independent of the metadata —
and a subsequent `get` of that id reflects the latest metadata. -/
theorem C1_idempotent_registration (st : List RegEntry) (n₁ n₂ n₃ : Nat)
    (d : SearchDefinition) (m₁ m₂ : List (String × String)) :
    (registerSearch st n₁ d m₁).1 = fingerprint d ∧
    (registerSearch (registerSearch st n₁ d m₁).2 n₂ d m₂).1 = fingerprint d ∧
    ((registryGet (registerSearch (registerSearch st n₁ d m₁).2 n₂ d m₂).2 n₃
        (fingerprint d)).1).map (fun e => e.metadata) = some m₂ := by
  refine ⟨rfl, rfl, ?_⟩
  obtain ⟨e, hfind, hm, -, -⟩ :=
    find?_registerSearch (registerSearch st n₁ d m₁).2 n₂ d m₂
  simp [registryGet, hfind, hm]

/-! ## C2 — uniform not-found message -/

/-- C2: on an id absent from the registry, the `/info` lookup and every other
lookup-by-id operation fail with the not-found message
"SearchId \x60id\x60 not found", the requested id echoed verbatim and
backtick-quoted. -/
theorem C2_not_found_message (searches : List RegEntry) (search_id : String)
    (h : fetchSearch searches search_id = none) :
    infoEndpoint searches search_id =
        Except.error ("SearchId `" ++ search_id ++ "` not found") ∧
    lookupByIdOperation searches search_id =
        Except.error ("SearchId `" ++ search_id ++ "` not found") := by
  refine ⟨?_, ?_⟩ <;>
    simp [infoEndpoint, lookupByIdOperation, h, notFoundDetail]

/-- Witness for C2 at the registry state and id the tests probe. -/
theorem C2_witness :
    infoEndpoint [] "aaaaaaaaaaaaaaaaaaaaaaaaaaaaaaaa" =
        Except.error ("SearchId `aaaaaaaaaaaaaaaaaaaaaaaaaaaaaaaa` not found") ∧
    lookupByIdOperation [] "aaaaaaaaaaaaaaaaaaaaaaaaaaaaaaaa" =
        Except.error ("SearchId `aaaaaaaaaaaaaaaaaaaaaaaaaaaaaaaa` not found") :=
  C2_not_found_message [] "aaaaaaaaaaaaaaaaaaaaaaaaaaaaaaaa" rfl

/-! ## C8 — `filter-lang` defaults to `cql2-json` -/

/-- A registration request body before normalization (spec section 4.1):
shorthand fields or an explicit filter, with `filter-lang` optional. -/
structure RawQuery where
  collections : Option (List String)
  ids : Option (List String)
  bbox : Option (List Rat)
  datetime : Option String
  filterExpr : Option String
  filterLang : Option String
deriving DecidableEq, Repr

/-- Modelled from the spec: the Query Normalizer is not among the source
files; per the spec it merges the shorthand fields into one canonical
definition and "`filter-lang` defaults to the single supported dialect if
omitted", the dialect being `cql2-json`. -/
def normalize (r : RawQuery) : SearchDefinition :=
  { collections := r.collections, ids := r.ids, bbox := r.bbox,
    datetime := r.datetime, filterExpr := r.filterExpr,
    filterLang := r.filterLang.getD "cql2-json" }

/-- C8: a registration request that omits `filter-lang` is normalized to the
single supported dialect, so the stored definition retrieved via `/info`
carries `filter-lang = "cql2-json"`.  The registry-state hypothesis reflects
that registration through the normalizer is the store's only write path. -/
theorem C8_filter_lang_default (r : RawQuery) (st : List RegEntry)
    (now : Nat) (m : List (String × String))
    (hlang : r.filterLang = none)
    (hwf : ∀ e ∈ st, e.definition.filterLang = "cql2-json") :
    (normalize r).filterLang = "cql2-json" ∧
    (infoEndpoint (registerSearch st now (normalize r) m).2
        (fingerprint (normalize r))).toOption.map
          (fun e => e.definition.filterLang) = some "cql2-json" := by
  refine ⟨by simp [normalize, hlang], ?_⟩
  obtain ⟨e, hfind, -, -, hdef⟩ :=
    find?_registerSearch st now (normalize r) m
  have hl : e.definition.filterLang = "cql2-json" := by
    rcases hdef with h | ⟨e₀, hfind₀, hdefeq, -⟩
    · rw [h]; simp [normalize, hlang]
    · rw [hdefeq]
      exact hwf e₀ (List.mem_of_find?_eq_some hfind₀)
  simp only [infoEndpoint, fetchSearch, hfind]
  exact congrArg some hl

/-- The collections-only registration body of the tests, with `filter-lang`
omitted. -/
def rawQuery₀ : RawQuery :=
  { collections := some ["noaa-emergency-response"], ids := none,
    bbox := none, datetime := none, filterExpr := none, filterLang := none }

/-- Witness for C8: a fresh registry, the collections-only query of the
tests, registered and read back. -/
theorem C8_witness :
    (normalize rawQuery₀).filterLang = "cql2-json" ∧
    (infoEndpoint (registerSearch [] 1 (normalize rawQuery₀) []).2
        (fingerprint (normalize rawQuery₀))).toOption.map
          (fun e => e.definition.filterLang) = some "cql2-json" :=
  C8_filter_lang_default rawQuery₀ [] 1 [] rfl (by simp)

/-! ## C6 — the Listing & Sort Engine

Modelled from the spec: the listing component is not among the source files.
Per the spec, `sortby` carries a metadata key with a prefix convention
(leading `-` descending, leading `+` or bare ascending), sorting is stable,
and with no `sortby` registration order is preserved. -/

/-- Decimal value of a digit string (the JSON numbers of `metadata` as
stored in their textual form). -/
def digitsVal (ds : List Char) : Nat :=
  ds.foldl (fun n c => n * 10 + (c.toNat - 48)) 0

/-- Integer value of a numeral string, with an optional leading minus. -/
def strNum (s : String) : Int :=
  match s.data with
  | '-' :: ds => -(digitsVal ds : Int)
  | ds => (digitsVal ds : Int)

/-- The numeric value of a metadata key, as the backend compares the JSON
numbers stored in `metadata` (an absent key sorts as 0). -/
def mdNum (e : RegEntry) (k : String) : Int :=
  ((e.metadata.lookup k).map strNum).getD 0

/-- Modelled from the spec: "`sortDirection` derived from a prefix
convention: a leading `-` means descending, a leading `+` or no prefix means
ascending".  Returns the bare key and the descending flag. -/
def sortbyDir (s : String) : String × Bool :=
  match s.data with
  | '-' :: rest => (String.mk rest, true)
  | '+' :: rest => (String.mk rest, false)
  | _ => (s, false)

/-- Sort-key comparison on entries: ascending or descending on the numeric
metadata value. -/
def keyLe (k : String) (desc : Bool) (a b : RegEntry) : Bool :=
  match desc with
  | true => decide (mdNum b k ≤ mdNum a k)
  | false => decide (mdNum a k ≤ mdNum b k)

/-- Stable insertion: the element goes after every already-placed element
that compares `le` to it, so equal keys keep their relative order. -/
def insertSorted {α : Type} (le : α → α → Bool) (a : α) : List α → List α
  | [] => [a]
  | b :: bs => if le b a then b :: insertSorted le a bs else a :: b :: bs

/-- Stable insertion sort: elements are inserted left to right. -/
def sortEntries {α : Type} (le : α → α → Bool) (l : List α) : List α :=
  l.foldl (fun acc a => insertSorted le a acc) []

/-- Modelled from the spec: the list operation — no `sortby` preserves
registration order, otherwise a stable sort by the requested metadata key in
the requested direction. -/
def listSearches (st : List RegEntry) (sortby : Option String) :
    List RegEntry :=
  match sortby with
  | none => st
  | some s => sortEntries (keyLe (sortbyDir s).1 (sortbyDir s).2) st

/-- Modelled from the spec: listing as a state transformer — "listing must
not perturb usage recency of every entry it scans", so the store comes back
unchanged. -/
def listingOperation (st : List RegEntry) (sortby : Option String) :
    List RegEntry × List RegEntry :=
  (listSearches st sortby, st)

/-! Helper lemmas: the insertion sort really sorts. -/

theorem mem_insertSorted {α : Type} (le : α → α → Bool) (a x : α)
    (l : List α) : x ∈ insertSorted le a l ↔ x = a ∨ x ∈ l := by
  induction l with
  | nil => simp [insertSorted]
  | cons b bs ih =>
    by_cases h : le b a = true
    · rw [insertSorted, if_pos h]
      simp only [List.mem_cons, ih]
      tauto
    · rw [insertSorted, if_neg h]
      simp only [List.mem_cons]

theorem pairwise_insertSorted {α : Type} (le : α → α → Bool)
    (htot : ∀ x y, le x y = true ∨ le y x = true)
    (htrans : ∀ x y z, le x y = true → le y z = true → le x z = true)
    (a : α) (l : List α) (h : l.Pairwise (fun x y => le x y = true)) :
    (insertSorted le a l).Pairwise (fun x y => le x y = true) := by
  induction l with
  | nil => simp [insertSorted]
  | cons b bs ih =>
    rcases List.pairwise_cons.mp h with ⟨hb, hbs⟩
    by_cases hba : le b a = true
    · rw [insertSorted, if_pos hba]
      refine List.pairwise_cons.mpr ⟨?_, ih hbs⟩
      intro x hx
      rcases (mem_insertSorted le a x bs).mp hx with rfl | hx
      · exact hba
      · exact hb x hx
    · have hab : le a b = true := by
        rcases htot b a with h' | h'
        · exact absurd h' hba
        · exact h'
      rw [insertSorted, if_neg hba]
      refine List.pairwise_cons.mpr ⟨?_, h⟩
      intro x hx
      rcases List.mem_cons.mp hx with rfl | hx
      · exact hab
      · exact htrans a b x hab (hb x hx)

theorem pairwise_sortEntries {α : Type} (le : α → α → Bool)
    (htot : ∀ x y, le x y = true ∨ le y x = true)
    (htrans : ∀ x y z, le x y = true → le y z = true → le x z = true)
    (l : List α) :
    (sortEntries le l).Pairwise (fun x y => le x y = true) := by
  suffices h : ∀ acc : List α, acc.Pairwise (fun x y => le x y = true) →
      (l.foldl (fun acc a => insertSorted le a acc) acc).Pairwise
        (fun x y => le x y = true) from h [] (by simp)
  induction l with
  | nil => exact fun acc hacc => hacc
  | cons a tl ih =>
    exact fun acc hacc => ih _ (pairwise_insertSorted le htot htrans a acc hacc)

/-- A registry entry with a `num` metadata value, as registered by
`test_mosaic_list`. -/
def entryNum (h n : String) : RegEntry :=
  { hash := h, definition := normalize rawQuery₀,
    metadata := [("data", "noaa"), ("num", n)], createdat := 0, lastused := 0 }

/-- The three entries of the listing test, registered with `num = 2, 1, 3`
in that order. -/
def entriesC6 : List RegEntry :=
  [entryNum "a" "2", entryNum "b" "1", entryNum "c" "3"]

/-- C6: sorting by `-key` is descending, by `+key` or a bare key ascending,
and no `sortby` preserves registration order; on the test's three entries
with `num = 2, 1, 3`, `+num` and `num` yield `[1,2,3]`, `-num` yields
`[3,2,1]`, and no `sortby` yields `[2,1,3]`. -/
theorem C6_list_sorting :
    listSearches entriesC6 (some "+num") =
        [entryNum "b" "1", entryNum "a" "2", entryNum "c" "3"] ∧
    listSearches entriesC6 (some "num") =
        [entryNum "b" "1", entryNum "a" "2", entryNum "c" "3"] ∧
    listSearches entriesC6 (some "-num") =
        [entryNum "c" "3", entryNum "a" "2", entryNum "b" "1"] ∧
    listSearches entriesC6 none = entriesC6 ∧
    sortbyDir "-num" = ("num", true) ∧
    sortbyDir "+num" = ("num", false) ∧
    sortbyDir "num" = ("num", false) ∧
    (∀ st k, (sortEntries (keyLe k false) st).Pairwise
        (fun a b => mdNum a k ≤ mdNum b k)) ∧
    (∀ st k, (sortEntries (keyLe k true) st).Pairwise
        (fun a b => mdNum b k ≤ mdNum a k)) := by
  refine ⟨by decide, by decide, by decide, rfl, by decide, by decide, by decide,
    ?_, ?_⟩
  · intro st k
    have h := pairwise_sortEntries (keyLe k false)
      (fun x y => by
        simp only [keyLe, decide_eq_true_eq]
        exact le_total (mdNum x k) (mdNum y k))
      (fun x y z hxy hyz => by
        simp only [keyLe, decide_eq_true_eq] at *
        exact le_trans hxy hyz) st
    exact h.imp (fun hab => by
      simpa only [keyLe, decide_eq_true_eq] using hab)
  · intro st k
    have h := pairwise_sortEntries (keyLe k true)
      (fun x y => by
        simp only [keyLe, decide_eq_true_eq]
        exact le_total (mdNum y k) (mdNum x k))
      (fun x y z hxy hyz => by
        simp only [keyLe, decide_eq_true_eq] at *
        exact le_trans hyz hxy) st
    exact h.imp (fun hab => by
      simpa only [keyLe, decide_eq_true_eq] using hab)

/-! ## C7 — `lastUsed` touch on lookup

The spec's store `get` refreshes `lastUsed`, and listing does not.  The
`/info` endpoint, however, reads the row with a plain
`SELECT * FROM searches WHERE hash=%s;` (extensions.py lines 38-44) — a
read-only statement that writes nothing — so the info lookup does NOT
update `lastUsed`, contradicting the claim's "including the info endpoint's
lookup". -/

/-- A registered entry whose `lastused` is 0, probed at current time 5. -/
def entry₀ : RegEntry :=
  { hash := "h", definition := normalize rawQuery₀, metadata := [],
    createdat := 0, lastused := 0 }

/-- Counterexample to C7: the `/info` lookup of `entry₀` succeeds, yet it
returns the store unchanged — `lastused` stays 0 — whereas the touching
`get` the claim describes would have stamped the current time 5. -/
theorem C7_counterexample :
    (infoSelect [entry₀] "h").1.isSome = true ∧
    (infoSelect [entry₀] "h").2.map (fun e => e.lastused) = [0] ∧
    (registryGet [entry₀] 5 "h").2.map (fun e => e.lastused) = [5] ∧
    (infoSelect [entry₀] "h").2 ≠ (registryGet [entry₀] 5 "h").2 := by
  refine ⟨rfl, rfl, rfl, by decide⟩

/-- C7 amended: the store's `get` refreshes `lastUsed` on every successful
lookup and listing leaves the store untouched, but the `/info` endpoint's
lookup is a plain select that does not update `lastUsed` of the row it
reads. -/
theorem C7_amended_touch (st : List RegEntry) (now : Nat) (id : String)
    (sb : Option String) (e : RegEntry)
    (h : st.find? (fun x => x.hash == id) = some e) :
    (registryGet st now id).1 = some { e with lastused := now } ∧
    (registryGet st now id).2.find? (fun x => x.hash == id) =
        some { e with lastused := now } ∧
    infoSelect st id = (some e, st) ∧
    (listingOperation st sb).2 = st := by
  refine ⟨by simp [registryGet, h], ?_, by simp [infoSelect, h], rfl⟩
  simp only [registryGet, h]
  rw [find?_map_if (fun x => x.hash == id)
    (fun x => { x with lastused := now }) (fun a ha => ha) st]
  rw [h]
  rfl

/-- Witness for C7's amended statement at the one-entry store. -/
theorem C7_witness :
    (registryGet [entry₀] 5 "h").1 = some { entry₀ with lastused := 5 } ∧
    (registryGet [entry₀] 5 "h").2.find? (fun x => x.hash == "h") =
        some { entry₀ with lastused := 5 } ∧
    infoSelect [entry₀] "h" = (some entry₀, [entry₀]) ∧
    (listingOperation [entry₀] none).2 = [entry₀] :=
  C7_amended_touch [entry₀] 5 "h" none entry₀ rfl

/-! ## Rel values of each link block -/

theorem rel_of_mem_tilejsonLinks (u : Option String)
    (layers : List (String × String)) :
    ∀ l ∈ tilejsonLinks u layers, l.rel = "tilejson" := by
  cases u with
  | none => simp [tilejsonLinks]
  | some href =>
    intro l hl
    rcases List.mem_cons.mp hl with rfl | hl
    · rfl
    · rcases List.mem_map.mp hl with ⟨x, -, rfl⟩
      rfl

theorem rel_of_mem_mapViewerLinks (u : Option String)
    (layers : List (String × String)) :
    ∀ l ∈ mapViewerLinks u layers, l.rel = "map" := by
  cases u with
  | none => simp [mapViewerLinks]
  | some href =>
    intro l hl
    rcases List.mem_cons.mp hl with rfl | hl
    · rfl
    · rcases List.mem_map.mp hl with ⟨x, -, rfl⟩
      rfl

theorem rel_of_mem_wmtsLinks (u : Option String) :
    ∀ l ∈ wmtsLinks u, l.rel = "wmts" := by
  cases u with
  | none => simp [wmtsLinks]
  | some href =>
    intro l hl
    rcases List.mem_cons.mp hl with rfl | hl
    · rfl
    · simp at hl

/-! ## C3 — invalid `defaults` layers are skipped with one warning -/

/-- C3: a layer of `metadata.defaults` whose parameters do not validate
against the tile endpoint's dependencies contributes no link and exactly one
warning naming it; the warnings are exactly one per rejected layer, the kept
layers are exactly the accepted ones, every accepted layer still gets its
parameterized link, and the call as a whole returns a result (a pair of
links and warnings) rather than raising. -/
theorem C3_invalid_layer_skipped {P : Type} (check : P → Bool)
    (enc : P → String) (renders : List (String × P)) (selfHref u : String)
    (mv wm : Option String) (name : String) (values : P)
    (hmem : (name, values) ∈ renders) (hbad : check values = false) :
    layerWarning name ∈ (infoResult check enc renders selfHref (some u) mv wm).2 ∧
    (infoResult check enc renders selfHref (some u) mv wm).2 =
      (renders.filter (fun r => !check r.2)).map (fun r => layerWarning r.1) ∧
    (buildLayers check enc renders).1 =
      (renders.filter (fun r => check r.2)).map (fun r => (r.1, enc r.2)) ∧
    (∀ n v, (n, v) ∈ renders → check v = true →
      tilejsonLayerLink u (n, enc v) ∈
        (infoResult check enc renders selfHref (some u) mv wm).1) := by
  have hsnd : (infoResult check enc renders selfHref (some u) mv wm).2 =
      (renders.filter (fun r => !check r.2)).map (fun r => layerWarning r.1) :=
    buildLayers_snd check enc renders
  refine ⟨?_, hsnd, buildLayers_fst check enc renders, ?_⟩
  · rw [hsnd]
    exact List.mem_map.mpr ⟨(name, values),
      List.mem_filter.mpr ⟨hmem, by simp [hbad]⟩, rfl⟩
  · intro n v hnv hv
    have hlay : (n, enc v) ∈ (buildLayers check enc renders).1 := by
      rw [buildLayers_fst]
      exact List.mem_map.mpr ⟨(n, v), List.mem_filter.mpr ⟨hnv, by simp [hv]⟩, rfl⟩
    have : tilejsonLayerLink u (n, enc v) ∈
        tilejsonLinks (some u) (buildLayers check enc renders).1 :=
      List.mem_cons.mpr (Or.inr (List.mem_map.mpr ⟨(n, enc v), hlay, rfl⟩))
    simp only [infoResult, infoLinks]
    exact List.mem_cons.mpr (Or.inr (List.mem_append.mpr
      (Or.inl (List.mem_append.mpr (Or.inl this)))))

/-- Validity check of the tile dependencies in the witness scenario: the
parameter mapping is abstracted as a `Nat` that is nonzero exactly when
`check_query_params` accepts it (`bad_layer`, missing `assets`, maps to 0). -/
def check₁ : Nat → Bool := fun v => v != 0

/-- URL encoding of the witness's parameter mappings. -/
def enc₁ : Nat → String := fun _ => "assets=cog"

/-- The `defaults` mapping of the metadata test: one valid layer and the
`bad_layer` that is missing `assets`. -/
def renders₁ : List (String × Nat) := [("one_band", 1), ("bad_layer", 0)]

/-- Witness for C3 at the metadata test's layers. -/
theorem C3_witness :
    layerWarning "bad_layer" ∈
        (infoResult check₁ enc₁ renders₁ "S" (some "T") none none).2 ∧
    (infoResult check₁ enc₁ renders₁ "S" (some "T") none none).2 =
      (renders₁.filter (fun r => !check₁ r.2)).map (fun r => layerWarning r.1) ∧
    (buildLayers check₁ enc₁ renders₁).1 =
      (renders₁.filter (fun r => check₁ r.2)).map (fun r => (r.1, enc₁ r.2)) ∧
    (∀ n v, (n, v) ∈ renders₁ → check₁ v = true →
      tilejsonLayerLink "T" (n, enc₁ v) ∈
        (infoResult check₁ enc₁ renders₁ "S" (some "T") none none).1) :=
  C3_invalid_layer_skipped check₁ enc₁ renders₁ "S" "T" none none
    "bad_layer" 0 (by decide) (by decide)

/-! ## C9 — self link always, base links per exposed kind, silent skip -/

/-- C9: the constructed sequence always starts with the entry's self link;
for every exposed endpoint kind the un-parameterized base link is present;
when a kind is not exposed no link of that kind appears and the warnings are
exactly those of the layer validation, independent of which kinds are
exposed (no warning for a skipped kind), and construction of the other
links proceeds. -/
theorem C9_self_and_exposed_kinds {P : Type} (check : P → Bool)
    (enc : P → String) (renders : List (String × P)) (selfHref : String)
    (tj mv wm : Option String) :
    (infoResult check enc renders selfHref tj mv wm).1.head? =
        some (selfLink selfHref) ∧
    (∀ u, tj = some u →
      tilejsonBase u ∈ (infoResult check enc renders selfHref tj mv wm).1) ∧
    (∀ u, mv = some u →
      mapViewerBase u ∈ (infoResult check enc renders selfHref tj mv wm).1) ∧
    (∀ u, wm = some u →
      wmtsLink u ∈ (infoResult check enc renders selfHref tj mv wm).1) ∧
    (tj = none → ∀ l ∈ (infoResult check enc renders selfHref tj mv wm).1,
      l.rel ≠ "tilejson") ∧
    (mv = none → ∀ l ∈ (infoResult check enc renders selfHref tj mv wm).1,
      l.rel ≠ "map") ∧
    (wm = none → ∀ l ∈ (infoResult check enc renders selfHref tj mv wm).1,
      l.rel ≠ "wmts") ∧
    (infoResult check enc renders selfHref tj mv wm).2 =
      (infoResult check enc renders selfHref none none none).2 := by
  set layers := (buildLayers check enc renders).1 with hlayers
  have hmem : ∀ l ∈ (infoResult check enc renders selfHref tj mv wm).1,
      l = selfLink selfHref ∨ l ∈ tilejsonLinks tj layers ∨
      l ∈ mapViewerLinks mv layers ∨ l ∈ wmtsLinks wm := by
    intro l hl
    simp only [infoResult, infoLinks, List.mem_cons, List.mem_append] at hl
    tauto
  refine ⟨rfl, ?_, ?_, ?_, ?_, ?_, ?_, rfl⟩
  · rintro u rfl
    simp [infoResult, infoLinks, tilejsonLinks]
  · rintro u rfl
    simp [infoResult, infoLinks, mapViewerLinks]
  · rintro u rfl
    simp [infoResult, infoLinks, wmtsLinks]
  · rintro rfl l hl
    rcases hmem l hl with rfl | hl' | hl' | hl'
    · simp [selfLink]
    · simp [tilejsonLinks] at hl'
    · rw [rel_of_mem_mapViewerLinks mv layers l hl']; decide
    · rw [rel_of_mem_wmtsLinks wm l hl']; decide
  · rintro rfl l hl
    rcases hmem l hl with rfl | hl' | hl' | hl'
    · simp [selfLink]
    · rw [rel_of_mem_tilejsonLinks tj layers l hl']; decide
    · simp [mapViewerLinks] at hl'
    · rw [rel_of_mem_wmtsLinks wm l hl']; decide
  · rintro rfl l hl
    rcases hmem l hl with rfl | hl' | hl' | hl'
    · simp [selfLink]
    · rw [rel_of_mem_tilejsonLinks tj layers l hl']; decide
    · rw [rel_of_mem_mapViewerLinks mv layers l hl']; decide
    · simp [wmtsLinks] at hl'

/-- Witness for C9: tilejson and WMTS exposed, map viewer not — the self
link leads, both exposed base links are present, no map link appears, and
the warnings equal those of the unexposed deployment. -/
theorem C9_witness :
    (infoResult check₁ enc₁ renders₁ "S" (some "T") none (some "W")).1.head? =
        some (selfLink "S") ∧
    tilejsonBase "T" ∈
        (infoResult check₁ enc₁ renders₁ "S" (some "T") none (some "W")).1 ∧
    wmtsLink "W" ∈
        (infoResult check₁ enc₁ renders₁ "S" (some "T") none (some "W")).1 ∧
    (∀ l ∈ (infoResult check₁ enc₁ renders₁ "S" (some "T") none (some "W")).1,
      l.rel ≠ "map") ∧
    (infoResult check₁ enc₁ renders₁ "S" (some "T") none (some "W")).2 =
      (infoResult check₁ enc₁ renders₁ "S" none none none).2 := by
  have h := C9_self_and_exposed_kinds check₁ enc₁ renders₁ "S"
    (some "T") none (some "W")
  exact ⟨h.1, h.2.1 "T" rfl, h.2.2.2.1 "W" rfl, h.2.2.2.2.2.1 rfl,
    h.2.2.2.2.2.2.2⟩

/-! ## C4 — the claimed link ordering versus the source's ordering -/

/-- The ordering the claim states: self, then ALL un-parameterized links
(one per exposed kind, in the order tilejson, map, wmts), then ALL
parameterized links per (layer, endpoint kind) pair, layers outermost (the
parameterized forms existing for tilejson and map).  Written for comparison
with the source's actual order. -/
def claimOrderLinks (selfHref : String) (tj mv wm : Option String)
    (layers : List (String × String)) : List Link :=
  selfLink selfHref ::
    ((tj.toList.map tilejsonBase ++ mv.toList.map mapViewerBase ++
        wm.toList.map wmtsLink) ++
      layers.flatMap (fun l =>
        tj.toList.map (fun u => tilejsonLayerLink u l) ++
        mv.toList.map (fun u => mapViewerLayerLink u l)))

/-- The `defaults` layers of the metadata test after encoding. -/
def layers₁ : List (String × String) := [("one_band", "assets=cog")]

/-- Counterexample to C4: with all three endpoint kinds exposed and one
valid layer, the source puts the parameterized TileJSON link at index 2 —
before the un-parameterized map link — whereas the claimed order would put
the un-parameterized map link there. -/
theorem C4_counterexample :
    infoLinks "S" (some "T") (some "M") (some "W") layers₁ ≠
        claimOrderLinks "S" (some "T") (some "M") (some "W") layers₁ ∧
    (infoLinks "S" (some "T") (some "M") (some "W") layers₁).get? 2 =
        some (tilejsonLayerLink "T" ("one_band", "assets=cog")) ∧
    (claimOrderLinks "S" (some "T") (some "M") (some "W") layers₁).get? 2 =
        some (mapViewerBase "M") := by
  refine ⟨by decide, rfl, rfl⟩

/-- The ordering the source actually produces, grouped by endpoint kind:
self first, then for tilejson and map the un-parameterized link followed
immediately by one parameterized link per valid layer (layers in `defaults`
order), then the WMTS link (which has no parameterized form). -/
def groupedOrderLinks {P : Type} (check : P → Bool) (enc : P → String)
    (renders : List (String × P)) (selfHref : String)
    (tj mv wm : Option String) : List Link :=
  let layers := (renders.filter (fun r => check r.2)).map (fun r => (r.1, enc r.2))
  selfLink selfHref ::
    ((tj.toList.flatMap fun u => tilejsonBase u :: layers.map (tilejsonLayerLink u)) ++
     (mv.toList.flatMap fun u => mapViewerBase u :: layers.map (mapViewerLayerLink u)) ++
     wm.toList.map wmtsLink)

/-- C4 amended: the constructed sequence is self first, then the links
grouped by endpoint kind in the fixed order tilejson, map, wmts — each
exposed kind contributing its un-parameterized link immediately followed by
its parameterized links, one per valid layer of `metadata.defaults` in
order (none for WMTS). -/
theorem C4_amended_grouped_order {P : Type} (check : P → Bool)
    (enc : P → String) (renders : List (String × P)) (selfHref : String)
    (tj mv wm : Option String) :
    (infoResult check enc renders selfHref tj mv wm).1 =
      groupedOrderLinks check enc renders selfHref tj mv wm := by
  simp only [infoResult, infoLinks, groupedOrderLinks, buildLayers_fst]
  cases tj <;> cases mv <;> cases wm <;>
    simp [tilejsonLinks, mapViewerLinks, wmtsLinks]

/-! ## C5 — the Spatial Asset Resolver

Modelled from the spec: the resolver is not among the source files.  It looks
the registry entry up (with the store's touching `get`), builds the backend
query `definition AND ST_Intersects(item.geometry, queryGeometry)` and maps
the rows into `AssetMatch` records; the backend's filter evaluation and
geometry intersection are abstracted as boolean parameters. -/

/-- A catalog item as the backend stores it. -/
structure CatalogItem where
  itemId : String
  collectionId : String
  bbox : List Rat
  assets : List String
deriving DecidableEq, Repr

/-- One resolved result of a spatial query (spec section 3, `AssetMatch`;
fields in the response order id, bbox, assets, collection). -/
structure AssetMatch where
  itemId : String
  bbox : List Rat
  assets : List String
  collectionId : String
deriving DecidableEq, Repr

/-- Modelled from the spec: the definition's collections and ids terms of
the backend query, "each term omitted when the corresponding definition
field is absent". -/
def defMatches (d : SearchDefinition) (it : CatalogItem) : Bool :=
  (match d.collections with
   | none => true
   | some cs => cs.contains it.collectionId) &&
  (match d.ids with
   | none => true
   | some l => l.contains it.itemId)

/-- Modelled from the spec: `resolveAssets(id, geometry)` — fails with the
not-found error exactly when the id is absent, otherwise returns the
(possibly empty) matches in catalog order. -/
def resolveAssets {G : Type} (filterEval : Option String → CatalogItem → Bool)
    (intersects : CatalogItem → G → Bool) (st : List RegEntry) (now : Nat)
    (catalog : List CatalogItem) (search_id : String) (geom : G) :
    Except String (List AssetMatch) :=
  match (registryGet st now search_id).1 with
  | none => Except.error (notFoundDetail search_id)
  | some e =>
    Except.ok ((catalog.filter (fun it =>
        defMatches e.definition it && filterEval e.definition.filterExpr it &&
        intersects it geom)).map
      (fun it => { itemId := it.itemId, bbox := it.bbox, assets := it.assets,
                   collectionId := it.collectionId }))

/-- C5: for a registered id, a geometry that intersects no catalog item
resolves to the empty sequence with success — never an error — and the
not-found failure occurs exactly when the id is absent from the registry,
never as an empty result. -/
theorem C5_empty_vs_not_found {G : Type}
    (filterEval : Option String → CatalogItem → Bool)
    (intersects : CatalogItem → G → Bool) (st : List RegEntry) (now : Nat)
    (catalog : List CatalogItem) (search_id : String) (geom : G) :
    ((st.find? (fun e => e.hash == search_id)).isSome = true →
      (∀ it ∈ catalog, intersects it geom = false) →
      resolveAssets filterEval intersects st now catalog search_id geom =
        Except.ok []) ∧
    (resolveAssets filterEval intersects st now catalog search_id geom =
        Except.error (notFoundDetail search_id) ↔
      st.find? (fun e => e.hash == search_id) = none) := by
  cases hfind : st.find? (fun e => e.hash == search_id) with
  | none =>
    refine ⟨fun hsome _ => by simp [hfind] at hsome, ?_⟩
    simp [resolveAssets, registryGet, hfind]
  | some e =>
    have hres : ∀ now, (registryGet st now search_id).1 =
        some { e with lastused := now } := fun now => by
      simp [registryGet, hfind]
    refine ⟨fun _ hempty => ?_, ?_⟩
    · have hnil : catalog.filter (fun it =>
          defMatches ({ e with lastused := now }).definition it &&
          filterEval ({ e with lastused := now }).definition.filterExpr it &&
          intersects it geom) = [] := by
        rw [List.filter_eq_nil_iff]
        intro it hit
        simp [hempty it hit]
      simp only [resolveAssets, hres, hnil, List.map_nil]
    · constructor
      · intro h
        simp only [resolveAssets, hres] at h
        exact Except.noConfusion h
      · intro h
        exact Option.noConfusion h

/-- A catalog item for the resolver witness. -/
def item₀ : CatalogItem :=
  { itemId := "20200307aC0853900w361030",
    collectionId := "noaa-emergency-response", bbox := [], assets := ["cog"] }

/-- Witness for C5: the one-entry registry and a geometry disjoint from the
only catalog item resolve to the empty sequence with success, and on a
missing id the outcome is exactly the not-found error. -/
theorem C5_witness :
    resolveAssets (fun _ _ => true) (fun (_ : CatalogItem) (_ : Unit) => false)
        [entry₀] 7 [item₀] "h" () = Except.ok [] ∧
    (resolveAssets (fun _ _ => true) (fun (_ : CatalogItem) (_ : Unit) => false)
        [entry₀] 7 [item₀] "missing" () =
        Except.error (notFoundDetail "missing") ↔
      List.find? (fun e => e.hash == "missing") [entry₀] = none) :=
  ⟨(C5_empty_vs_not_found (fun _ _ => true)
      (fun (_ : CatalogItem) (_ : Unit) => false) [entry₀] 7 [item₀] "h" ()).1
      (by decide) (fun it _ => rfl),
   (C5_empty_vs_not_found (fun _ _ => true)
      (fun (_ : CatalogItem) (_ : Unit) => false) [entry₀] 7 [item₀]
      "missing" ()).2⟩

/-! ## C10 — the ChangeDetectionVisualize algorithm (custom.py lines 52-66)

Per-pixel shallow embedding.  A rio-tiler `ImageData` holds a numpy masked
array: `arrMask` below is the masked-array invalid flag (`true` = masked),
while the `ImageData.mask` property exposes the GDAL-style VALID mask
(`255`, here `true`, where not masked) — the property is the negation of the
attribute.  `custom.py` assigns `data.mask = ~img.mask`, i.e. it stores the
negation of the input's valid mask into the output's invalid flags. -/

/-- The input image: one band of float pixel values. -/
structure ImageDataIn where
  data : List Rat
  arrMask : List Bool
  crs : String
  bounds : Rat × Rat × Rat × Rat
deriving DecidableEq, Repr

/-- The returned image: three uint8 bands per pixel. -/
structure ImageDataOut where
  data : List (Nat × Nat × Nat)
  arrMask : List Bool
  crs : String
  bounds : Rat × Rat × Rat × Rat
deriving DecidableEq, Repr

/-- The `mask` property of the input image (rio-tiler: valid where the
masked-array flag is off). -/
def maskOfIn (im : ImageDataIn) : List Bool := im.arrMask.map (fun b => !b)

/-- The `mask` property of the returned image. -/
def maskOfOut (im : ImageDataOut) : List Bool := im.arrMask.map (fun b => !b)

/-- `CHANGE_DETECTION_CMAP` (custom.py lines 16-31): intervals with RGBA
colors. -/
def changeDetectionCmap : List ((Rat × Rat) × (Nat × Nat × Nat × Nat)) :=
  [((-12, -2), (164, 0, 0, 100)),
   ((-2, -165/100), (179, 43, 35, 100)),
   ((-165/100, -13/10), (194, 85, 69, 100)),
   ((-13/10, -95/100), (210, 128, 104, 100)),
   ((-95/100, -6/10), (225, 170, 139, 100)),
   ((-6/10, -25/100), (240, 213, 173, 100)),
   ((-25/100, 0), (255, 255, 255, 0)),
   ((0, 25/100), (255, 255, 255, 0)),
   ((25/100, 6/10), (204, 255, 255, 100)),
   ((6/10, 95/100), (170, 212, 238, 100)),
   ((95/100, 13/10), (136, 170, 220, 100)),
   ((13/10, 165/100), (102, 128, 203, 100)),
   ((165/100, 2), (68, 85, 186, 100)),
   ((2, 18804758071899/1000000000000), (34, 43, 168, 100))]

/-- Per-pixel interval colormap application (external
`rio_tiler.colormap.apply_intervals_cmap`): start from transparent black and
let each interval whose `[lo, hi)` range contains the value overwrite the
color, last match winning. -/
def applyIntervals (cm : List ((Rat × Rat) × (Nat × Nat × Nat × Nat)))
    (v : Rat) : Nat × Nat × Nat × Nat :=
  cm.foldl (fun acc e => if e.1.1 ≤ v ∧ v < e.1.2 then e.2 else acc)
    (0, 0, 0, 0)

/-- Per-pixel `rio_tiler.utils.linear_rescale` to `(0, 255)`: clip to the
input range, then scale. -/
def linearRescale (lo hi v : Rat) : Rat :=
  (max lo (min v hi) - lo) / (hi - lo) * 255

/-- numpy `astype("uint8")` on the non-negative rescaled value: truncate and
wrap into the uint8 range. -/
def toUint8 (v : Rat) : Nat := (Rat.floor v).toNat % 256

/-- The external greyscale colormap `cmap.get("greys")`, modelled as the
uint8 linear ramp from white to black (the rio-tiler lookup table is
uint8-valued; the exact grey levels are the collaborator's). -/
def greysLookup (v : Nat) : Nat × Nat × Nat :=
  (255 - min v 255, 255 - min v 255, 255 - min v 255)

/-- The algorithm's `rescale` parameter default (custom.py line 43). -/
def defaultRescale : Rat × Rat := (-12, 18804758071899/1000000000000)

/-- `ChangeDetectionVisualize.__call__` (custom.py lines 52-66), per pixel:
rescale the raw value to uint8 and color it with the greyscale colormap;
where the interval colormap's alpha is nonzero, use the interval color
instead; keep crs and bounds, and store `~img.mask` (the negation of the
input's valid-mask property) as the output masked-array invalid flags. -/
def changeDetectionVisualize (img : ImageDataIn) : ImageDataOut :=
  { data :=
      ((img.data.map fun v =>
          greysLookup (toUint8
            (linearRescale defaultRescale.1 defaultRescale.2 v))).zip
        (img.data.map fun v => applyIntervals changeDetectionCmap v)).map
        (fun p => if p.2.2.2.2 ≠ 0 then (p.2.1, p.2.2.1, p.2.2.2.1) else p.1),
    arrMask := (maskOfIn img).map (fun b => !b),
    crs := img.crs, bounds := img.bounds }

/-- A foldl that at each step keeps the accumulator or picks the element's
image lands on the start value or on some element's image. -/
theorem foldl_if_cases {α β : Type} (g : α → β) (p : α → Prop)
    [DecidablePred p] (l : List α) (init : β) :
    l.foldl (fun acc e => if p e then g e else acc) init = init ∨
      l.foldl (fun acc e => if p e then g e else acc) init ∈ l.map g := by
  induction l generalizing init with
  | nil => exact Or.inl rfl
  | cons a tl ih =>
    simp only [List.foldl_cons, List.map_cons, List.mem_cons]
    by_cases h : p a
    · rw [if_pos h]
      rcases ih (g a) with h' | h'
      · exact Or.inr (Or.inl h')
      · exact Or.inr (Or.inr h')
    · rw [if_neg h]
      rcases ih init with h' | h'
      · exact Or.inl h'
      · exact Or.inr (Or.inr h')

/-- Every color the interval colormap can produce is uint8-valued. -/
theorem applyIntervals_lt (v : Rat) :
    (applyIntervals changeDetectionCmap v).1 < 256 ∧
    (applyIntervals changeDetectionCmap v).2.1 < 256 ∧
    (applyIntervals changeDetectionCmap v).2.2.1 < 256 := by
  have hall : ∀ c ∈ changeDetectionCmap.map (fun e => e.2),
      c.1 < 256 ∧ c.2.1 < 256 ∧ c.2.2.1 < 256 := by decide
  rcases foldl_if_cases (fun e => e.2) (fun e => e.1.1 ≤ v ∧ v < e.1.2)
      changeDetectionCmap (0, 0, 0, 0) with h | h
  · rw [applyIntervals, h]
    exact ⟨by norm_num, by norm_num, by norm_num⟩
  · rw [applyIntervals]
    exact hall _ h

/-- C10 amended: the returned image keeps the input's crs and bounds, its
pixel data is uint8-valued, and its mask property EQUALS the input's mask —
the code's `data.mask = ~img.mask` writes the negation of the valid mask
into the inverted-convention invalid flags, so validity is preserved, not
negated. -/
theorem C10_amended_frame (img : ImageDataIn) :
    (changeDetectionVisualize img).crs = img.crs ∧
    (changeDetectionVisualize img).bounds = img.bounds ∧
    (∀ p ∈ (changeDetectionVisualize img).data,
      p.1 < 256 ∧ p.2.1 < 256 ∧ p.2.2 < 256) ∧
    maskOfOut (changeDetectionVisualize img) = maskOfIn img := by
  refine ⟨rfl, rfl, ?_, ?_⟩
  · intro p hp
    simp only [changeDetectionVisualize, List.mem_map] at hp
    obtain ⟨q, hq, rfl⟩ := hp
    obtain ⟨a, b⟩ := q
    have hb : b ∈ img.data.map fun v => applyIntervals changeDetectionCmap v :=
      (List.of_mem_zip hq).2
    have ha : a ∈ img.data.map fun v =>
        greysLookup (toUint8 (linearRescale defaultRescale.1 defaultRescale.2 v)) :=
      (List.of_mem_zip hq).1
    by_cases h : b.2.2.2 ≠ 0
    · rw [if_pos h]
      obtain ⟨v, -, rfl⟩ := List.mem_map.mp hb
      exact applyIntervals_lt v
    · rw [if_neg h]
      obtain ⟨v, -, rfl⟩ := List.mem_map.mp ha
      refine ⟨?_, ?_, ?_⟩ <;>
        exact Nat.lt_succ_of_le (Nat.sub_le 255 _)
  · simp [maskOfOut, maskOfIn, changeDetectionVisualize, List.map_map,
      Function.comp]

/-- The one-pixel, unmasked input image of the counterexample. -/
def img₀ : ImageDataIn :=
  { data := [0], arrMask := [false], crs := "epsg:3857", bounds := (0, 0, 1, 1) }

/-- Counterexample to C10: at `img₀` the returned image's mask property is
`[true]` (the pixel stays valid), not the claimed elementwise negation
`[false]` of the input's mask — so the claim's conjunction fails. -/
theorem C10_counterexample :
    ¬((changeDetectionVisualize img₀).crs = img₀.crs ∧
      (changeDetectionVisualize img₀).bounds = img₀.bounds ∧
      (∀ p ∈ (changeDetectionVisualize img₀).data,
        p.1 < 256 ∧ p.2.1 < 256 ∧ p.2.2 < 256) ∧
      maskOfOut (changeDetectionVisualize img₀) =
        (maskOfIn img₀).map (fun b => !b)) := by
  intro h
  have hmask := h.2.2.2
  revert hmask
  decide

end TitilerPgstac
